import Mathlib

/-!
Verification of the Google Drive tool layer (src/gdrive/drive_tools.py).

Pure data transformations of the source are embedded as executable Lean
functions; side-effecting operations are embedded as functions returning a
trace of the outgoing API calls together with an `Except`-typed outcome.
Helpers that live in `gdrive/drive_helpers.py` (which is not part of the
sources) are modelled from the specification and marked as such.
-/

set_option maxRecDepth 2000

/-- The single-quote character (code 39). -/
def sq_char : Char := Char.ofNat 39

/-- The backslash character (code 92). -/
def bs_char : Char := Char.ofNat 92

/-- The single-quote character as a one-character string. -/
def sq_str : String := String.singleton sq_char

/-- Escape a list of characters the way `query.replace(chr(39), chr(92) + chr(39))`
does in `search_drive_files` (drive_tools.py line 90): every single quote is
replaced by a backslash followed by a single quote.  A one-character pattern
makes `str.replace` a per-character substitution. -/
def escape_chars : List Char → List Char
  | [] => []
  | c :: cs =>
    if c == sq_char then bs_char :: sq_char :: escape_chars cs
    else c :: escape_chars cs

/-- String form of `escape_chars`, the escaping used on free-text queries. -/
def escape_drive_query (query : String) : String :=
  String.mk (escape_chars query.data)

/-- The final query computed by `search_drive_files` (drive_tools.py lines
79-94): pass a structured query through unchanged, otherwise wrap the escaped
text in a fullText-contains clause.  The structured-query classifier
(`DRIVE_QUERY_PATTERNS` from gdrive.drive_helpers, not under src) is taken as
a parameter, so the results hold for every classifier. -/
def search_final_query (is_structured_query : String → Bool) (query : String) : String :=
  if is_structured_query query then query
  else "fullText contains " ++ sq_str ++ escape_drive_query query ++ sq_str

/-- Parameter set of a Drive listing call (the ListQuery of the spec). -/
structure ListParams where
  q : String
  pageSize : Nat
  corpora : Option String
  driveId : Option String
  includeItemsFromAllDrives : Bool
deriving DecidableEq, Repr

/-- Modelled from the spec: `build_drive_list_params` lives in
gdrive.drive_helpers, which is not under src.  Per spec section 4.1: the query
passes through; an explicit corpora wins, else a given drive id defaults
corpora to drive, else corpora stays unset; includeItemsFromAllDrives is
forced on whenever a drive id is present. -/
def build_drive_list_params (query : String) (page_size : Nat) (drive_id : Option String)
    (include_items_from_all_drives : Bool) (corpora : Option String) : ListParams :=
  ⟨query, page_size,
   (match corpora with
    | some c => some c
    | none => if drive_id.isSome then some "drive" else none),
   drive_id,
   (if drive_id.isSome then true else include_items_from_all_drives)⟩

/-- The listing parameters `search_drive_files` sends (drive_tools.py lines
96-102): the final query is handed to `build_drive_list_params`. -/
def search_drive_files_list_params (is_structured_query : String → Bool) (query : String)
    (page_size : Nat) (drive_id : Option String) (include_items_from_all_drives : Bool)
    (corpora : Option String) : ListParams :=
  build_drive_list_params (search_final_query is_structured_query query) page_size
    drive_id include_items_from_all_drives corpora

/-- Python truthiness of an optional string (`if fileUrl:` style guards):
true only for a present, non-empty string. -/
def truthy : Option String → Bool
  | some s => !s.isEmpty
  | none => false

/-- UTF-8 encoding of one character as byte values. -/
def utf8_encode_char (c : Char) : List Nat :=
  let n := c.toNat
  if n < 128 then [n]
  else if n < 2048 then [192 + n / 64, 128 + n % 64]
  else if n < 65536 then [224 + n / 4096, 128 + (n / 64) % 64, 128 + n % 64]
  else [240 + n / 262144, 128 + (n / 4096) % 64, 128 + (n / 64) % 64, 128 + n % 64]

/-- UTF-8 bytes of a string, as Python utf-8 encoding produces them. -/
def utf8_bytes (s : String) : List Nat :=
  (s.data.map utf8_encode_char).flatten

/-- Characters allowed in a URL scheme after the initial letter
(urllib scheme_chars: letters, digits, plus, minus, dot). -/
def scheme_char (c : Char) : Bool :=
  c.isAlpha || c.isDigit || c == '+' || c == '-' || c == '.'

/-- Split a URL into scheme and remainder following urllib.parse.urlsplit:
the part before the first colon is the scheme when it starts with an ASCII
letter and continues with scheme characters; the scheme is lowercased. -/
def split_scheme (url : String) : String × String :=
  let cs := url.data
  match cs.findIdx? (fun c => c == ':') with
  | some i =>
    if 0 < i && (cs.headD ' ').isAlpha && ((cs.take i).drop 1).all scheme_char then
      (String.mk ((cs.take i).map Char.toLower), String.mk (cs.drop (i + 1)))
    else ("", url)
  | none => ("", url)

/-- The scheme component of a URL (`urlparse(fileUrl).scheme`). -/
def url_scheme (url : String) : String := (split_scheme url).1

/-- Split the post-scheme part of a URL into netloc and remainder, following
urllib: a netloc is present only after a double slash and extends to the next
slash, question mark, or hash. -/
def split_netloc (rest : String) : String × String :=
  match rest.data with
  | c1 :: c2 :: r =>
    if c1 == '/' && c2 == '/' then
      let netloc := r.takeWhile (fun c => !(c == '/' || c == '?' || c == '#'))
      (String.mk netloc, String.mk (r.drop netloc.length))
    else ("", rest)
  | _ => ("", rest)

/-- The path component: the remainder up to a query or fragment marker. -/
def url_path_of (rest_after_netloc : String) : String :=
  String.mk (rest_after_netloc.data.takeWhile (fun c => !(c == '?' || c == '#')))

/-- Value of a hexadecimal digit character, if any. -/
def hex_val (c : Char) : Option Nat :=
  if c.isDigit then some (c.toNat - 48)
  else if 65 ≤ c.toNat && c.toNat ≤ 70 then some (c.toNat - 55)
  else if 97 ≤ c.toNat && c.toNat ≤ 102 then some (c.toNat - 87)
  else none

/-- Percent-decoding as done by `url2pathname` or `unquote` on a POSIX path:
a percent sign followed by two hex digits decodes to that character code;
malformed escapes are kept verbatim.  Multi-byte UTF-8 escape sequences are
modelled as their individual byte codes. -/
def percent_decode : List Char → List Char
  | [] => []
  | c :: a :: b :: r =>
    if c == '%' then
      match hex_val a, hex_val b with
      | some ha, some hb => Char.ofNat (16 * ha + hb) :: percent_decode r
      | _, _ => c :: percent_decode (a :: b :: r)
    else c :: percent_decode (a :: b :: r)
  | c :: rest => c :: percent_decode rest

/-- The local filesystem path `create_drive_file` derives from a file URL
(drive_tools.py lines 509-514): take the URL path, re-attach a non-localhost
netloc as a UNC-style prefix, then percent-decode via `url2pathname`. -/
def file_url_local_path (fileUrl : String) : String :=
  let rest := (split_scheme fileUrl).2
  let nl := split_netloc rest
  let raw_path := url_path_of nl.2
  let raw_path :=
    if !nl.1.isEmpty && String.mk (nl.1.data.map Char.toLower) ≠ "localhost" then "//" ++ nl.1 ++ raw_path
    else raw_path
  String.mk (percent_decode raw_path.data)

/-- Metadata of a Drive item as fetched by the resolver (mimeType, name,
webViewLink fields of a files.get response). -/
structure DriveMeta where
  mimeType : String
  name : String
  webViewLink : String
deriving DecidableEq, Repr

/-- Metadata body of a files.create call (drive_tools.py lines 485-489). -/
structure FileMeta where
  name : String
  parents : List String
  mimeType : String
deriving DecidableEq, Repr

/-- Result object of a successful files.create call. -/
structure CreatedFile where
  id : String
  name : String
  webViewLink : String
deriving DecidableEq, Repr

/-- Body of a permissions.create call (drive_tools.py lines 1177-1192 and
1305-1318).  The dict key named type is rendered here as ptype. -/
structure PermBody where
  ptype : String
  role : String
  emailAddress : Option String
  domain : Option String
  expirationTime : Option String
  allowFileDiscovery : Option Bool
deriving DecidableEq, Repr

/-- A permission record returned by the permissions API. -/
structure Permission where
  ptype : String
  role : String
  emailAddress : Option String
  domain : Option String
  expirationTime : Option String
deriving DecidableEq, Repr

/-- Value of an entry in the files.update body (string, boolean, or the
custom-properties map). -/
inductive UpdateVal where
  | str : String → UpdateVal
  | bool : Bool → UpdateVal
  | props : List (String × String) → UpdateVal
deriving DecidableEq, Repr

/-- One outgoing call of the embedded operations: the Drive API calls made by
drive_tools.py, plus external HTTP fetches. -/
inductive Call where
  | filesGet : String → Call
  | filesExportMedia : String → String → Call
  | filesGetMedia : String → Call
  | httpGet : String → Call
  | filesCreate : FileMeta → List Nat → String → Call
  | permissionsCreate : String → PermBody → Call
deriving DecidableEq, Repr

/-- A call is mutating when it creates or changes server-side state.  The
third argument of filesCreate is the MIME type declared on the upload media. -/
def Call.isMutating : Call → Bool
  | .filesCreate _ _ _ => true
  | .permissionsCreate _ _ => true
  | _ => false

/-- Environment of the embedded operations: results of the external
collaborators (Drive API lookups, permission creation, transport-mode oracle,
filesystem, HTTP fetches). -/
structure DriveEnv where
  meta : String → DriveMeta
  shortcut_target : String → Option String
  perm_create : String → PermBody → Except String Permission
  files_create_result : FileMeta → List Nat → CreatedFile
  transport_mode : String
  stateless_mode : Bool
  fs_exists : String → Bool
  fs_is_file : String → Bool
  fs_read : String → List Nat
  http_status : String → Nat
  http_body : String → List Nat
  http_content_type : String → Option String

/-- MIME type marking a Drive shortcut. -/
def shortcut_mime : String := "application/vnd.google-apps.shortcut"

/-- MIME type of a Drive folder. -/
def folder_mime : String := "application/vnd.google-apps.folder"

/-- Modelled from the spec: `resolve_drive_item` lives in
gdrive.drive_helpers, not under src.  Per spec section 4.2 it fetches the
metadata of the given id and follows at most one level of shortcut
indirection, returning the canonical id and its metadata. -/
def resolve_drive_item (env : DriveEnv) (file_id : String) :
    List Call × String × DriveMeta :=
  let m := env.meta file_id
  if m.mimeType == shortcut_mime then
    match env.shortcut_target file_id with
    | some t => ([Call.filesGet file_id, Call.filesGet t], t, env.meta t)
    | none => ([Call.filesGet file_id], file_id, m)
  else ([Call.filesGet file_id], file_id, m)

/-- Modelled from the spec: `resolve_folder_id` lives in gdrive.drive_helpers,
not under src.  Per spec section 4.2 the sentinel root is returned unchanged
without a lookup; any other id is resolved and must denote a folder. -/
def resolve_folder_id (env : DriveEnv) (folder_id : String) :
    List Call × Except String String :=
  if folder_id == "root" then ([], Except.ok "root")
  else
    let r := resolve_drive_item env folder_id
    if r.2.2.mimeType == folder_mime then (r.1, Except.ok r.2.1)
    else (r.1, Except.error ("Folder id " ++ sq_str ++ folder_id ++ sq_str ++ " does not denote a folder"))

/-- Modelled from the spec: `validate_share_role` lives in
gdrive.drive_helpers, not under src.  The documented roles are reader,
commenter, and writer; anything else is an invalid-argument failure. -/
def validate_share_role (role : String) : Except String Unit :=
  if role == "reader" || role == "commenter" || role == "writer" then Except.ok ()
  else Except.error ("Invalid role " ++ sq_str ++ role ++ sq_str ++ ". Must be one of: reader, commenter, writer")

/-- Modelled from the spec: `validate_share_type` lives in
gdrive.drive_helpers, not under src.  The documented share types are user,
group, domain, and anyone. -/
def validate_share_type (share_type : String) : Except String Unit :=
  if share_type == "user" || share_type == "group" || share_type == "domain" || share_type == "anyone" then Except.ok ()
  else Except.error ("Invalid share type " ++ sq_str ++ share_type ++ sq_str ++ ". Must be one of: user, group, domain, anyone")

/-- Decidable shape check for an RFC 3339 timestamp, used to model
expiration-time validation: a date, the letter T, and a time, with the
standard separators at their fixed positions. -/
def rfc3339_shape (t : String) : Bool :=
  let cs := t.data
  decide (19 ≤ cs.length) &&
  [0, 1, 2, 3, 5, 6, 8, 9, 11, 12, 14, 15, 17, 18].all (fun i => (cs.getD i ' ').isDigit) &&
  cs.getD 4 ' ' == '-' && cs.getD 7 ' ' == '-' && cs.getD 10 ' ' == 'T' &&
  cs.getD 13 ' ' == ':' && cs.getD 16 ' ' == ':'

/-- Modelled from the spec: `validate_expiration_time` lives in
gdrive.drive_helpers, not under src.  Per spec section 7 a malformed RFC 3339
expiration value is an invalid-argument failure. -/
def validate_expiration_time (t : String) : Except String Unit :=
  if rfc3339_shape t then Except.ok ()
  else Except.error ("Invalid expiration_time format: " ++ t ++ ". Expected RFC 3339 format")

/-- Modelled from the spec: `format_permission_info` lives in
gdrive.drive_helpers, not under src.  Per spec section 4.5 the rendering
varies by type: anyone omits a principal, domain shows the domain, user and
group show the email; an expiration, if present, is appended. -/
def format_permission_info (p : Permission) : String :=
  let who :=
    if p.ptype == "anyone" then "Anyone with the link"
    else if p.ptype == "domain" then "Domain: " ++ p.domain.getD "unknown"
    else p.emailAddress.getD "unknown"
  let base := who ++ " (" ++ p.role ++ ")"
  match p.expirationTime with
  | some t => base ++ " [expires: " ++ t ++ "]"
  | none => base

/-- Native Google document MIME type. -/
def gdoc_mime : String := "application/vnd.google-apps.document"

/-- Native Google spreadsheet MIME type. -/
def gsheet_mime : String := "application/vnd.google-apps.spreadsheet"

/-- Native Google presentation MIME type. -/
def gslides_mime : String := "application/vnd.google-apps.presentation"

/-- DOCX export MIME type. -/
def docx_mime : String := "application/vnd.openxmlformats-officedocument.wordprocessingml.document"

/-- XLSX export MIME type. -/
def xlsx_mime : String := "application/vnd.openxmlformats-officedocument.spreadsheetml.sheet"

/-- PPTX export MIME type. -/
def pptx_mime : String := "application/vnd.openxmlformats-officedocument.presentationml.presentation"

/-- PDF export MIME type. -/
def pdf_mime : String := "application/pdf"

/-- CSV export MIME type. -/
def csv_mime : String := "text/csv"

/-- Splitting a character list on slashes (the components of a path). -/
def split_on_slash : List Char → List (List Char)
  | [] => [[]]
  | c :: cs =>
    let r := split_on_slash cs
    if c == '/' then [] :: r
    else (c :: r.headD []) :: r.tail

/-- Whether a string ends with the given suffix, as str.endswith decides it:
the last characters of the string are exactly the suffix. -/
def ends_with (s suffix : String) : Bool :=
  decide (suffix.data.length ≤ s.data.length) &&
  s.data.drop (s.data.length - suffix.data.length) == suffix.data

/-- The name component of a path as pathlib computes it: the last
slash-separated component, ignoring empty and single-dot components. -/
def path_name (s : String) : String :=
  match ((split_on_slash s.data).filter
      (fun p => !p.isEmpty && p ≠ ['.'])).getLast? with
  | some t => String.mk t
  | none => s

/-- Index of the last dot in a list of characters, if any. -/
def last_dot_index (cs : List Char) : Option Nat :=
  match cs.reverse.findIdx? (fun c => c == '.') with
  | some j => some (cs.length - 1 - j)
  | none => none

/-- The stem of a filename as pathlib computes it: the name without its last
extension; a leading or trailing dot does not start an extension. -/
def python_stem (s : String) : String :=
  let name := path_name s
  let cs := name.data
  match last_dot_index cs with
  | some i => if 0 < i && i < cs.length - 1 then String.mk (cs.take i) else name
  | none => name

/-- The filename adjustment of `get_drive_file_download_url` (drive_tools.py
lines 267-268 and analogues): when the name lacks the target extension, the
extension is put after the stem of the name. -/
def fix_extension (name ext : String) : String :=
  if ends_with name ext then name else python_stem name ++ ext

/-- Outcome of the export negotiation in `get_drive_file_download_url`
(drive_tools.py lines 257-304): the export MIME sent to the API (none for a
download as-is), the MIME recorded for the output, and the output filename. -/
structure ExportChoice where
  export_mime_type : Option String
  output_mime_type : String
  output_filename : String
deriving DecidableEq, Repr

/-- The export negotiation of `get_drive_file_download_url` (drive_tools.py
lines 257-304), branch for branch. -/
def negotiate_export (mime_type : String) (export_format : Option String)
    (file_name : String) : ExportChoice :=
  if mime_type == gdoc_mime then
    if export_format == some "docx" then
      ⟨some docx_mime, docx_mime, fix_extension file_name ".docx"⟩
    else
      ⟨some pdf_mime, pdf_mime, fix_extension file_name ".pdf"⟩
  else if mime_type == gsheet_mime then
    if export_format == some "csv" then
      ⟨some csv_mime, csv_mime, fix_extension file_name ".csv"⟩
    else
      ⟨some xlsx_mime, xlsx_mime, fix_extension file_name ".xlsx"⟩
  else if mime_type == gslides_mime then
    if export_format == some "pptx" then
      ⟨some pptx_mime, pptx_mime, fix_extension file_name ".pptx"⟩
    else
      ⟨some pdf_mime, pdf_mime, fix_extension file_name ".pdf"⟩
  else ⟨none, mime_type, file_name⟩

/-- The media request issued after negotiation (drive_tools.py lines
306-311): an export request when an export MIME was chosen, a plain media
download otherwise. -/
def download_request (file_id : String) (export_mime_type : Option String) : Call :=
  match export_mime_type with
  | some m => Call.filesExportMedia file_id m
  | none => Call.filesGetMedia file_id

/-- The extension targeted by each native-type branch of the negotiation
(none for non-native types); mirrors the branch structure of drive_tools.py
lines 262-304 and is used to state the filename property. -/
def chosen_extension (mime_type : String) (export_format : Option String) : Option String :=
  if mime_type == gdoc_mime then
    some (if export_format == some "docx" then ".docx" else ".pdf")
  else if mime_type == gsheet_mime then
    some (if export_format == some "csv" then ".csv" else ".xlsx")
  else if mime_type == gslides_mime then
    some (if export_format == some "pptx" then ".pptx" else ".pdf")
  else none

/-- The sentinel MIME value that never overrides the declared type. -/
def octet_stream : String := "application/octet-stream"

/-- The MIME type used after inspecting an HTTP Content-Type header
(drive_tools.py lines 570-572 and 619-624): a present, non-empty header value
other than the octet-stream sentinel replaces the declared type. -/
def content_type_mime (declared : String) (header : Option String) : String :=
  match header with
  | some ct => if !ct.isEmpty && ct ≠ octet_stream then ct else declared
  | none => declared

/-- Error message raised when neither content nor fileUrl is given. -/
def msg_need_content_or_url : String :=
  "You must provide either " ++ sq_str ++ "content" ++ sq_str ++ " or " ++ sq_str ++ "fileUrl" ++ sq_str ++ "."

/-- Guidance appended to a missing-path error in streamable-http mode
(drive_tools.py lines 519-523). -/
def streamable_missing_extra : String :=
  " The server is running via streamable-http, so file:// URLs must point to files inside the container or remote host."

/-- Guidance appended to a not-a-file error in streamable-http mode
(drive_tools.py lines 526-530). -/
def streamable_not_file_extra : String :=
  " In streamable-http/Docker deployments, mount the file into the container or provide an HTTP(S) URL."

/-- Error message for a fileUrl without a scheme (drive_tools.py line 656). -/
def msg_missing_scheme : String :=
  "fileUrl is missing a URL scheme. Use file://, http://, or https://."

/-- Error message for an unsupported URL scheme (drive_tools.py line 660). -/
def msg_unsupported_scheme (scheme : String) : String :=
  "Unsupported URL scheme " ++ sq_str ++ scheme ++ sq_str ++ ". Only file://, http://, and https:// are supported."

/-- Error message for a failed HTTP fetch (drive_tools.py lines 565 and 603). -/
def msg_fetch_failed (url : String) (status : Nat) : String :=
  "Failed to fetch file from URL: " ++ url ++ " (status " ++ toString status ++ ")"

/-- Embedding of `create_drive_file` (drive_tools.py lines 451-680): returns
the trace of outgoing calls together with the outcome.  Chunked streaming is
embedded by its value semantics: the bytes written to the temporary file and
re-read for upload are exactly the response body. -/
def create_drive_file (env : DriveEnv) (file_name : String) (content : Option String)
    (folder_id : String) (mime_type : String) (fileUrl : Option String) :
    List Call × Except String CreatedFile :=
  if !truthy content && !truthy fileUrl then ([], Except.error msg_need_content_or_url)
  else
    match resolve_folder_id env folder_id with
    | (tr0, Except.error e) => (tr0, Except.error e)
    | (tr0, Except.ok rid) =>
      let file_metadata : FileMeta := ⟨file_name, [rid], mime_type⟩
      if truthy fileUrl then
        let url := fileUrl.getD ""
        let scheme := url_scheme url
        if scheme == "file" then
          let running_streamable := env.transport_mode == "streamable-http"
          let file_path := file_url_local_path url
          if !env.fs_exists file_path then
            let extra := if running_streamable then streamable_missing_extra else ""
            (tr0, Except.error ("Local file does not exist: " ++ file_path ++ "." ++ extra))
          else if !env.fs_is_file file_path then
            let extra := if running_streamable then streamable_not_file_extra else ""
            (tr0, Except.error ("Path is not a file: " ++ file_path ++ "." ++ extra))
          else
            let file_data := env.fs_read file_path
            (tr0 ++ [Call.filesCreate file_metadata file_data mime_type],
             Except.ok (env.files_create_result file_metadata file_data))
        else if scheme == "http" || scheme == "https" then
          if env.stateless_mode then
            if env.http_status url ≠ 200 then
              (tr0 ++ [Call.httpGet url],
               Except.error (msg_fetch_failed url (env.http_status url)))
            else
              let file_data := env.http_body url
              let mt := content_type_mime mime_type (env.http_content_type url)
              let meta2 : FileMeta := ⟨file_name, [rid], mt⟩
              (tr0 ++ [Call.httpGet url, Call.filesCreate meta2 file_data mt],
               Except.ok (env.files_create_result meta2 file_data))
          else
            if env.http_status url ≠ 200 then
              (tr0 ++ [Call.httpGet url],
               Except.error (msg_fetch_failed url (env.http_status url)))
            else
              let file_data := env.http_body url
              let mt := content_type_mime mime_type (env.http_content_type url)
              let meta2 : FileMeta := ⟨file_name, [rid], mt⟩
              (tr0 ++ [Call.httpGet url, Call.filesCreate meta2 file_data mt],
               Except.ok (env.files_create_result meta2 file_data))
        else
          if scheme.isEmpty then (tr0, Except.error msg_missing_scheme)
          else (tr0, Except.error (msg_unsupported_scheme scheme))
      else
        let file_data := utf8_bytes (content.getD "")
        (tr0 ++ [Call.filesCreate file_metadata file_data mime_type],
         Except.ok (env.files_create_result file_metadata file_data))

/-- The newline used to join result lines. -/
def nl_str : String := "\n"

/-- Completion of `share_drive_file` after validation (drive_tools.py lines
1194-1219): issue the permissions.create call and render the confirmation. -/
def share_finish (env : DriveEnv) (tr : List Call) (fid : String) (meta : DriveMeta)
    (body : PermBody) : List Call × Except String String :=
  match env.perm_create fid body with
  | Except.ok p =>
    (tr ++ [Call.permissionsCreate fid body],
     Except.ok (String.intercalate nl_str
       ["Successfully shared " ++ sq_str ++ meta.name ++ sq_str,
        "",
        "Permission created:",
        "  - " ++ format_permission_info p,
        "",
        "View link: " ++ meta.webViewLink]))
  | Except.error e => (tr ++ [Call.permissionsCreate fid body], Except.error e)

/-- Embedding of `share_drive_file` (drive_tools.py lines 1129-1219): role and
share-type validation, the share-with requirement, item resolution, permission
body construction with optional expiration and discovery settings, then the
create call. -/
def share_drive_file (env : DriveEnv) (file_id : String) (share_with : Option String)
    (role : String) (share_type : String) (send_notification : Bool)
    (email_message : Option String) (expiration_time : Option String)
    (allow_file_discovery : Option Bool) : List Call × Except String String :=
  match validate_share_role role with
  | Except.error e => ([], Except.error e)
  | Except.ok _ =>
  match validate_share_type share_type with
  | Except.error e => ([], Except.error e)
  | Except.ok _ =>
  if (share_type == "user" || share_type == "group") && !truthy share_with then
    ([], Except.error ("share_with is required for share_type " ++ sq_str ++ share_type ++ sq_str))
  else if share_type == "domain" && !truthy share_with then
    ([], Except.error ("share_with (domain name) is required for share_type " ++ sq_str ++ "domain" ++ sq_str))
  else
    let r := resolve_drive_item env file_id
    let tr := r.1
    let fid := r.2.1
    let meta := r.2.2
    let body0 : PermBody :=
      ⟨share_type, role,
       (if share_type == "user" || share_type == "group" then share_with else none),
       (if share_type == "domain" then share_with else none),
       none,
       (if (share_type == "domain" || share_type == "anyone") && allow_file_discovery.isSome
        then allow_file_discovery else none)⟩
    if truthy expiration_time then
      match validate_expiration_time (expiration_time.getD "") with
      | Except.error e => (tr, Except.error e)
      | Except.ok _ =>
        share_finish env tr fid meta
          ⟨body0.ptype, body0.role, body0.emailAddress, body0.domain,
           expiration_time, body0.allowFileDiscovery⟩
    else
      share_finish env tr fid meta body0

/-- A recipient entry of `batch_share_drive_file`: the optional dict fields
email, role, share_type, expiration_time, and domain. -/
structure Recipient where
  email : Option String
  role : Option String
  share_type : Option String
  expiration_time : Option String
  domain : Option String
deriving DecidableEq, Repr

/-- Per-recipient processing of the `batch_share_drive_file` loop body
(drive_tools.py lines 1272-1344): returns the calls made for this recipient,
the single result line recorded for it, and whether it counts as a success.
Every path records exactly one line. -/
def process_recipient (env : DriveEnv) (fid : String) (send_notification : Bool)
    (email_message : Option String) (r : Recipient) : List Call × String × Bool :=
  let share_type := r.share_type.getD "user"
  let idOrSkip : Except String String :=
    if share_type == "domain" then
      match r.domain with
      | some d => if d.isEmpty then Except.error "  - Skipped: missing domain for domain share" else Except.ok d
      | none => Except.error "  - Skipped: missing domain for domain share"
    else
      match r.email with
      | some e => if e.isEmpty then Except.error "  - Skipped: missing email address" else Except.ok e
      | none => Except.error "  - Skipped: missing email address"
  match idOrSkip with
  | Except.error line => ([], line, false)
  | Except.ok identifier =>
    let role := r.role.getD "reader"
    match validate_share_role role with
    | Except.error e => ([], "  - " ++ identifier ++ ": Failed - " ++ e, false)
    | Except.ok _ =>
    match validate_share_type share_type with
    | Except.error e => ([], "  - " ++ identifier ++ ": Failed - " ++ e, false)
    | Except.ok _ =>
    let body0 : PermBody :=
      ⟨share_type, role,
       (if share_type == "domain" then none else some identifier),
       (if share_type == "domain" then some identifier else none),
       none, none⟩
    let withExp : Except String PermBody :=
      if truthy r.expiration_time then
        match validate_expiration_time (r.expiration_time.getD "") with
        | Except.error e => Except.error ("  - " ++ identifier ++ ": Failed - " ++ e)
        | Except.ok _ =>
          Except.ok ⟨body0.ptype, body0.role, body0.emailAddress, body0.domain,
                     r.expiration_time, body0.allowFileDiscovery⟩
      else Except.ok body0
    match withExp with
    | Except.error line => ([], line, false)
    | Except.ok body =>
      match env.perm_create fid body with
      | Except.ok p =>
        ([Call.permissionsCreate fid body], "  - " ++ format_permission_info p, true)
      | Except.error e =>
        ([Call.permissionsCreate fid body], "  - " ++ identifier ++ ": Failed - " ++ e, false)

/-- The sequential recipient loop of `batch_share_drive_file` (drive_tools.py
lines 1268-1344): accumulates calls, one result line per recipient, and the
success and failure counters. -/
def batch_loop (env : DriveEnv) (fid : String) (send_notification : Bool)
    (email_message : Option String) : List Recipient → List Call × List String × Nat × Nat
  | [] => ([], [], 0, 0)
  | r :: rs =>
    let p := process_recipient env fid send_notification email_message r
    let rest := batch_loop env fid send_notification email_message rs
    (p.1 ++ rest.1, p.2.1 :: rest.2.1,
     (if p.2.2 then 1 else 0) + rest.2.2.1,
     (if p.2.2 then 0 else 1) + rest.2.2.2)

/-- The observable outcome of a batch share: the per-recipient result lines in
order, the two counters, and the rendered report. -/
structure BatchOutcome where
  results : List String
  success_count : Nat
  failure_count : Nat
  text : String
deriving DecidableEq, Repr

/-- Embedding of `batch_share_drive_file` (drive_tools.py lines 1225-1361):
resolve the item, reject an empty recipient list, then process the recipients
strictly in order and render the summary. -/
def batch_share_drive_file (env : DriveEnv) (file_id : String)
    (recipients : List Recipient) (send_notification : Bool)
    (email_message : Option String) : List Call × Except String BatchOutcome :=
  let r := resolve_drive_item env file_id
  let tr := r.1
  let fid := r.2.1
  let meta := r.2.2
  if recipients.isEmpty then (tr, Except.error "recipients list cannot be empty")
  else
    let l := batch_loop env fid send_notification email_message recipients
    let summary := "Summary: " ++ toString l.2.2.1 ++ " succeeded, " ++ toString l.2.2.2 ++ " failed"
    let text := String.intercalate nl_str
      (["Batch share results for " ++ sq_str ++ meta.name ++ sq_str, "", summary, "", "Results:"]
        ++ l.2.1 ++ ["", "View link: " ++ meta.webViewLink])
    (tr ++ l.1, Except.ok ⟨l.2.1, l.2.2.1, l.2.2.2, text⟩)

/-- One optional entry of the files.update body: a present value contributes
one keyed entry, an absent one contributes nothing. -/
def opt_field {α : Type} (key : String) (f : α → UpdateVal) : Option α → List (String × UpdateVal)
  | some v => [(key, f v)]
  | none => []

/-- The update body built by `update_drive_file` (drive_tools.py lines
945-962): only the parameters that were supplied enter the body, keyed as the
API expects. -/
def build_update_body (name description mime_type : Option String)
    (starred trashed writers_can_share copy_requires_writer_permission : Option Bool)
    (properties : Option (List (String × String))) : List (String × UpdateVal) :=
  opt_field "name" UpdateVal.str name ++
  opt_field "description" UpdateVal.str description ++
  opt_field "mimeType" UpdateVal.str mime_type ++
  opt_field "starred" UpdateVal.bool starred ++
  opt_field "trashed" UpdateVal.bool trashed ++
  opt_field "writersCanShare" UpdateVal.bool writers_can_share ++
  opt_field "copyRequiresWriterPermission" UpdateVal.bool copy_requires_writer_permission ++
  opt_field "properties" UpdateVal.props properties

/-- The parameters of the files.update call assembled by `update_drive_file`
(drive_tools.py lines 980-994): parent changes only when resolved to a
non-empty value, and a body only when at least one field was supplied. -/
structure UpdateQueryParams where
  fileId : String
  supportsAllDrives : Bool
  addParents : Option String
  removeParents : Option String
  body : Option (List (String × UpdateVal))
deriving DecidableEq, Repr

/-- Assembly of the files.update parameters (drive_tools.py lines 980-994). -/
def update_query_params (file_id : String)
    (resolved_add_parents resolved_remove_parents : Option String)
    (name description mime_type : Option String)
    (starred trashed writers_can_share copy_requires_writer_permission : Option Bool)
    (properties : Option (List (String × String))) : UpdateQueryParams :=
  let update_body := build_update_body name description mime_type starred trashed
    writers_can_share copy_requires_writer_permission properties
  ⟨file_id, true,
   (if truthy resolved_add_parents then resolved_add_parents else none),
   (if truthy resolved_remove_parents then resolved_remove_parents else none),
   (if update_body.isEmpty then none else some update_body)⟩

/-- A concrete environment for witnesses: every id resolves to a plain-text
item named Doc, permission creation echoes the request, transport is stdio. -/
def demo_env : DriveEnv :=
  ⟨fun _ => ⟨"text/plain", "Doc", "http://link"⟩,
   fun _ => none,
   fun _ b => Except.ok ⟨b.ptype, b.role, b.emailAddress, b.domain, b.expirationTime⟩,
   fun _ _ => ⟨"newid", "Doc", "http://link"⟩,
   "stdio", false,
   fun _ => false, fun _ => false, fun _ => [],
   fun _ => 200, fun _ => [7, 8], fun _ => none⟩

/-- A streamable-http (network-isolated) environment whose filesystem holds
exactly one regular file, /data/ok.txt, with bytes 1, 2, 3. -/
def streamable_env : DriveEnv :=
  ⟨fun _ => ⟨"text/plain", "Doc", "http://link"⟩,
   fun _ => none,
   fun _ b => Except.ok ⟨b.ptype, b.role, b.emailAddress, b.domain, b.expirationTime⟩,
   fun _ _ => ⟨"newid", "up.txt", "http://newlink"⟩,
   "streamable-http", false,
   fun p => p == "/data/ok.txt", fun p => p == "/data/ok.txt", fun _ => [1, 2, 3],
   fun _ => 200, fun _ => [9], fun _ => none⟩

/-- A stateless-mode environment whose HTTP responses are successful, have
body bytes 1, 2, and carry an empty Content-Type header. -/
def stateless_empty_ct_env : DriveEnv :=
  ⟨fun _ => ⟨"text/plain", "Doc", "http://link"⟩,
   fun _ => none,
   fun _ b => Except.ok ⟨b.ptype, b.role, b.emailAddress, b.domain, b.expirationTime⟩,
   fun _ _ => ⟨"newid", "f.txt", "http://newlink"⟩,
   "stdio", true,
   fun _ => false, fun _ => false, fun _ => [],
   fun _ => 200, fun _ => [1, 2], fun _ => some ""⟩

theorem escape_chars_eq_flatten (l : List Char) :
    escape_chars l =
      (l.map (fun c => if c == sq_char then [bs_char, sq_char] else [c])).flatten := by
  induction l with
  | nil => rfl
  | cons c cs ih =>
    by_cases h : c = sq_char <;> simp [escape_chars, h, ih]

theorem opt_field_mem {α : Type} (key : String) (f : α → UpdateVal) (o : Option α)
    (k : String) (x : UpdateVal) :
    ((k, x) ∈ opt_field key f o) ↔ (k = key ∧ ∃ v, o = some v ∧ x = f v) := by
  cases o <;> simp [opt_field]

theorem opt_field_eq_nil {α : Type} (key : String) (f : α → UpdateVal) (o : Option α) :
    opt_field key f o = [] ↔ o = none := by
  cases o <;> simp [opt_field]

theorem resolve_drive_item_trace (env : DriveEnv) (file_id : String) :
    ∀ c ∈ (resolve_drive_item env file_id).1, ∃ x, c = Call.filesGet x := by
  unfold resolve_drive_item
  by_cases h : (env.meta file_id).mimeType == shortcut_mime
  · cases ht : env.shortcut_target file_id <;> simp [h, ht]
  · simp [h]

theorem resolve_folder_id_trace (env : DriveEnv) (folder_id : String) :
    ∀ c ∈ (resolve_folder_id env folder_id).1, ∃ x, c = Call.filesGet x := by
  unfold resolve_folder_id
  by_cases h : folder_id == "root"
  · simp [h]
  · by_cases h2 : (resolve_drive_item env folder_id).2.2.mimeType == folder_mime <;>
      simp [h, h2] <;> exact fun c hc => resolve_drive_item_trace env folder_id c hc

theorem batch_loop_spec (env : DriveEnv) (fid : String) (sn : Bool) (em : Option String)
    (rs : List Recipient) :
    (batch_loop env fid sn em rs).2.1 =
      rs.map (fun r => (process_recipient env fid sn em r).2.1) ∧
    (batch_loop env fid sn em rs).2.2.1 =
      (rs.map (fun r => (process_recipient env fid sn em r).2.2)).count true ∧
    (batch_loop env fid sn em rs).2.2.2 =
      (rs.map (fun r => (process_recipient env fid sn em r).2.2)).count false := by
  induction rs with
  | nil => simp [batch_loop]
  | cons r rest ih =>
    refine ⟨?_, ?_, ?_⟩ <;>
      cases hb : (process_recipient env fid sn em r).2.2 <;>
        simp [batch_loop, ih.1, ih.2.1, ih.2.2, hb, List.count_cons] <;> omega

theorem isEmpty_false_of_ne (s : String) (h : s ≠ "") : s.isEmpty = false := by
  rw [Bool.eq_false_iff]
  intro hemp
  exact h ((String.isEmpty_iff s).mp hemp)

/-- C1: For every structured-query classifier and every input, the query that
the search operation hands to the listing call is the input unchanged when
the classifier matches, and otherwise the fullText-contains wrapping of the
input with every single-quote character replaced by a backslash-escaped
single quote. -/
theorem c1_search_query_construction (cls : String → Bool) (query : String)
    (page_size : Nat) (drive_id : Option String) (include_all : Bool)
    (corpora : Option String) :
    (cls query = true →
      (search_drive_files_list_params cls query page_size drive_id include_all corpora).q = query) ∧
    (cls query = false →
      (search_drive_files_list_params cls query page_size drive_id include_all corpora).q =
        "fullText contains " ++ sq_str ++
          String.mk ((query.data.map
            (fun c => if c == sq_char then [bs_char, sq_char] else [c])).flatten) ++ sq_str) := by
  constructor <;> intro h <;>
    simp [search_drive_files_list_params, build_drive_list_params, search_final_query, h,
      escape_drive_query, escape_chars_eq_flatten]

/-- C1 witness: the free-text query budget is wrapped as a fullText-contains
clause. -/
theorem c1_search_query_construction_witness :
    (search_drive_files_list_params (fun _ => false) "budget" 10 none true none).q =
      "fullText contains " ++ sq_str ++ "budget" ++ sq_str := by
  have h := (c1_search_query_construction (fun _ => false) "budget" 10 none true none).2 rfl
  exact h.trans (by decide)

/-- C2: Batch sharing never aborts on a per-recipient failure: the outcome
records exactly one result line per recipient, in input order, with the
success and failure counters counting those outcomes; in the 3-recipient
scenario where only the second role is invalid, the results arrive in order
and the summary is exactly 2 successes and 1 failure. -/
theorem c2_batch_share_per_recipient :
    (∀ (env : DriveEnv) (file_id : String) (sn : Bool) (em : Option String)
        (rs : List Recipient), rs ≠ [] →
      (batch_share_drive_file env file_id rs sn em).2.map BatchOutcome.results =
        Except.ok (rs.map (fun r =>
          (process_recipient env (resolve_drive_item env file_id).2.1 sn em r).2.1)) ∧
      (batch_share_drive_file env file_id rs sn em).2.map BatchOutcome.success_count =
        Except.ok ((rs.map (fun r =>
          (process_recipient env (resolve_drive_item env file_id).2.1 sn em r).2.2)).count true) ∧
      (batch_share_drive_file env file_id rs sn em).2.map BatchOutcome.failure_count =
        Except.ok ((rs.map (fun r =>
          (process_recipient env (resolve_drive_item env file_id).2.1 sn em r).2.2)).count false)) ∧
    ((batch_share_drive_file demo_env "f1"
        [⟨some "a@x.com", some "reader", none, none, none⟩,
         ⟨some "b@x.com", some "superadmin", none, none, none⟩,
         ⟨some "c@x.com", some "writer", none, none, none⟩] true none).2.map
        BatchOutcome.results =
      Except.ok
        ["  - a@x.com (reader)",
         "  - b@x.com: Failed - Invalid role " ++ sq_str ++ "superadmin" ++ sq_str ++
           ". Must be one of: reader, commenter, writer",
         "  - c@x.com (writer)"]) ∧
    ((batch_share_drive_file demo_env "f1"
        [⟨some "a@x.com", some "reader", none, none, none⟩,
         ⟨some "b@x.com", some "superadmin", none, none, none⟩,
         ⟨some "c@x.com", some "writer", none, none, none⟩] true none).2.map
        BatchOutcome.success_count = Except.ok 2) ∧
    ((batch_share_drive_file demo_env "f1"
        [⟨some "a@x.com", some "reader", none, none, none⟩,
         ⟨some "b@x.com", some "superadmin", none, none, none⟩,
         ⟨some "c@x.com", some "writer", none, none, none⟩] true none).2.map
        BatchOutcome.failure_count = Except.ok 1) := by
  refine ⟨?_, by rfl, by rfl, by rfl⟩
  intro env file_id sn em rs hne
  have hb := batch_loop_spec env (resolve_drive_item env file_id).2.1 sn em rs
  unfold batch_share_drive_file
  simp [List.isEmpty_iff, hne, hb.1, hb.2.1, hb.2.2, Except.map]

/-- C2 witness: a single valid recipient yields exactly its one success
line. -/
theorem c2_batch_share_per_recipient_witness :
    (batch_share_drive_file demo_env "f1"
      [⟨some "a@x.com", some "reader", none, none, none⟩] true none).2.map
      BatchOutcome.results = Except.ok ["  - a@x.com (reader)"] := by
  have h := (c2_batch_share_per_recipient.1 demo_env "f1" true none
    [⟨some "a@x.com", some "reader", none, none, none⟩] (by simp)).1
  exact h.trans (by rfl)

/-- C3 counterexample: with a syntactically invalid expiration time and an
otherwise valid request, share_drive_file fails only after the
metadata-resolution API call has been issued; the trace at failure is not
empty, so a validation failure does not always precede the first
network/API call. -/
theorem c3_counterexample :
    (share_drive_file demo_env "f1" (some "bob@x.com") "reader" "user" true none
      (some "bad-date") none).1 = [Call.filesGet "f1"] ∧
    ([Call.filesGet "f1"] : List Call) ≠ [] ∧
    (share_drive_file demo_env "f1" (some "bob@x.com") "reader" "user" true none
      (some "bad-date") none).2 =
      Except.error "Invalid expiration_time format: bad-date. Expected RFC 3339 format" := by
  exact ⟨rfl, by decide, rfl⟩

/-- C3 amended: role and share-type validation in share_drive_file fail
before any API call; an invalid expiration time in share_drive_file, an
unsupported URL scheme in create_drive_file, and an empty recipients list in
batch_share_drive_file each fail after only the read-only resolution calls
and before any mutating API call, so a validation failure leaves no partial
side effects. -/
theorem c3_validation_before_mutation :
    (∀ (env : DriveEnv) (fid : String) (sw : Option String) (role st : String) (sn : Bool)
        (em et : Option String) (afd : Option Bool) (e : String),
      validate_share_role role = Except.error e →
      share_drive_file env fid sw role st sn em et afd = ([], Except.error e)) ∧
    (∀ (env : DriveEnv) (fid : String) (sw : Option String) (role st : String) (sn : Bool)
        (em et : Option String) (afd : Option Bool) (e : String),
      validate_share_role role = Except.ok () →
      validate_share_type st = Except.error e →
      share_drive_file env fid sw role st sn em et afd = ([], Except.error e)) ∧
    (∀ (env : DriveEnv) (fid : String) (sw : Option String) (role st : String) (sn : Bool)
        (em : Option String) (t : String) (afd : Option Bool) (e : String),
      validate_share_role role = Except.ok () →
      validate_share_type st = Except.ok () →
      truthy sw = true → truthy (some t) = true →
      validate_expiration_time t = Except.error e →
      share_drive_file env fid sw role st sn em (some t) afd =
        ((resolve_drive_item env fid).1, Except.error e) ∧
      ∀ c ∈ (resolve_drive_item env fid).1, c.isMutating = false) ∧
    (∀ (env : DriveEnv) (n : String) (content : Option String) (folder mime u : String)
        (rid : String) (tr : List Call),
      truthy (some u) = true →
      url_scheme u ≠ "file" → url_scheme u ≠ "http" → url_scheme u ≠ "https" →
      resolve_folder_id env folder = (tr, Except.ok rid) →
      (∃ e, (create_drive_file env n content folder mime (some u)).2 = Except.error e) ∧
      ∀ c ∈ (create_drive_file env n content folder mime (some u)).1,
        c.isMutating = false) ∧
    (∀ (env : DriveEnv) (fid : String) (sn : Bool) (em : Option String),
      batch_share_drive_file env fid [] sn em =
        ((resolve_drive_item env fid).1, Except.error "recipients list cannot be empty") ∧
      ∀ c ∈ (resolve_drive_item env fid).1, c.isMutating = false) := by
  refine ⟨?_, ?_, ?_, ?_, ?_⟩
  · intro env fid sw role st sn em et afd e h
    unfold share_drive_file
    simp [h]
  · intro env fid sw role st sn em et afd e h1 h2
    unfold share_drive_file
    simp [h1, h2]
  · intro env fid sw role st sn em t afd e h1 h2 h3 h4 h5
    constructor
    · unfold share_drive_file
      simp [h1, h2, h3, h4, h5]
    · intro c hc
      obtain ⟨x, hx⟩ := resolve_drive_item_trace env fid c hc
      simp [hx, Call.isMutating]
  · intro env n content folder mime u rid tr hu hf hh hhs hres
    have hgoal : create_drive_file env n content folder mime (some u) =
        (tr, Except.error (if (url_scheme u).isEmpty then msg_missing_scheme
          else msg_unsupported_scheme (url_scheme u))) := by
      unfold create_drive_file
      simp [hu, hres, hf, hh, hhs]
      split_ifs <;> rfl
    constructor
    · exact ⟨_, by rw [hgoal]⟩
    · intro c hc
      rw [hgoal] at hc
      obtain ⟨x, hx⟩ := resolve_folder_id_trace env folder c (by rw [hres]; exact hc)
      simp [hx, Call.isMutating]
  · intro env fid sn em
    constructor
    · unfold batch_share_drive_file
      simp
    · intro c hc
      obtain ⟨x, hx⟩ := resolve_drive_item_trace env fid c hc
      simp [hx, Call.isMutating]

/-- C3 witness: an invalid role fails with an empty trace, and an empty
recipients list fails right after the single resolution read. -/
theorem c3_validation_before_mutation_witness :
    share_drive_file demo_env "f1" (some "bob@x.com") "banana" "user" true none none none =
      ([], Except.error ("Invalid role " ++ sq_str ++ "banana" ++ sq_str ++
        ". Must be one of: reader, commenter, writer")) ∧
    batch_share_drive_file demo_env "f1" [] true none =
      ([Call.filesGet "f1"], Except.error "recipients list cannot be empty") := by
  constructor
  · exact c3_validation_before_mutation.1 demo_env "f1" (some "bob@x.com") "banana"
      "user" true none none none _ rfl
  · exact (c3_validation_before_mutation.2.2.2.2 demo_env "f1" true none).1

/-- C4: A file-scheme upload is rejected unless the path is confirmed
reachable from the server process: a missing path or a non-regular file
always fails, with the container-local-path guidance appended exactly in
streamable-http (network-isolated) mode, and no upload call is issued; a
reachable regular file proceeds to the upload. -/
theorem c4_file_url_isolated (env : DriveEnv) (n : String) (content : Option String)
    (folder mime u : String) (tr : List Call) (rid : String)
    (hscheme : url_scheme u = "file")
    (hres : resolve_folder_id env folder = (tr, Except.ok rid)) :
    (env.fs_exists (file_url_local_path u) = false →
      create_drive_file env n content folder mime (some u) =
        (tr, Except.error ("Local file does not exist: " ++ file_url_local_path u ++ "." ++
          (if env.transport_mode == "streamable-http" then streamable_missing_extra else "")))) ∧
    (env.fs_exists (file_url_local_path u) = true →
     env.fs_is_file (file_url_local_path u) = false →
      create_drive_file env n content folder mime (some u) =
        (tr, Except.error ("Path is not a file: " ++ file_url_local_path u ++ "." ++
          (if env.transport_mode == "streamable-http" then streamable_not_file_extra else "")))) ∧
    (env.fs_exists (file_url_local_path u) = true →
     env.fs_is_file (file_url_local_path u) = true →
      create_drive_file env n content folder mime (some u) =
        (tr ++ [Call.filesCreate ⟨n, [rid], mime⟩ (env.fs_read (file_url_local_path u)) mime],
         Except.ok (env.files_create_result ⟨n, [rid], mime⟩
           (env.fs_read (file_url_local_path u))))) ∧
    (∀ c ∈ tr, c.isMutating = false) := by
  have hu : truthy (some u) = true := by
    by_cases h : u = ""
    · subst h
      simp [url_scheme, split_scheme] at hscheme
    · simp [truthy, isEmpty_false_of_ne u h]
  refine ⟨?_, ?_, ?_, ?_⟩
  · intro h1
    unfold create_drive_file
    simp [hu, hres, hscheme, h1]
  · intro h1 h2
    unfold create_drive_file
    simp [hu, hres, hscheme, h1, h2]
  · intro h1 h2
    unfold create_drive_file
    simp [hu, hres, hscheme, h1, h2]
  · intro c hc
    obtain ⟨x, hx⟩ := resolve_folder_id_trace env folder c (by rw [hres]; exact hc)
    simp [hx, Call.isMutating]

/-- C4 witness: in the streamable-http environment, the missing path
/data/missing.txt fails with the container guidance while the reachable
regular file /data/ok.txt uploads. -/
theorem c4_file_url_isolated_witness :
    create_drive_file streamable_env "f.txt" none "root" "text/plain"
      (some "file:///data/missing.txt") =
      ([], Except.error ("Local file does not exist: /data/missing.txt." ++
        streamable_missing_extra)) ∧
    create_drive_file streamable_env "f.txt" none "root" "text/plain"
      (some "file:///data/ok.txt") =
      ([Call.filesCreate ⟨"f.txt", ["root"], "text/plain"⟩ [1, 2, 3] "text/plain"],
       Except.ok ⟨"newid", "up.txt", "http://newlink"⟩) := by
  constructor
  · have h := (c4_file_url_isolated streamable_env "f.txt" none "root" "text/plain"
      "file:///data/missing.txt" [] "root" (by decide) rfl).1 (by decide)
    exact h.trans (by rfl)
  · have h := ((c4_file_url_isolated streamable_env "f.txt" none "root" "text/plain"
      "file:///data/ok.txt" [] "root" (by decide) rfl).2.2.1 (by decide) (by decide))
    exact h.trans (by rfl)

/-- C5: Export negotiation for the download-URL operation is the fixed
table: a document exports as PDF by default and as DOCX exactly when docx is
requested; a spreadsheet as XLSX by default and as CSV exactly when csv is
requested; a presentation as PDF by default and as PPTX exactly when pptx is
requested; every non-native source MIME type yields no export MIME and the
file is downloaded as-is with its original MIME type. -/
theorem c5_export_table (fmt : Option String) (n fid mime : String) :
    ((negotiate_export gdoc_mime fmt n).export_mime_type = some docx_mime ↔ fmt = some "docx") ∧
    (fmt ≠ some "docx" →
      (negotiate_export gdoc_mime fmt n).export_mime_type = some pdf_mime ∧
      (negotiate_export gdoc_mime fmt n).output_mime_type = pdf_mime) ∧
    ((negotiate_export gsheet_mime fmt n).export_mime_type = some csv_mime ↔ fmt = some "csv") ∧
    (fmt ≠ some "csv" →
      (negotiate_export gsheet_mime fmt n).export_mime_type = some xlsx_mime ∧
      (negotiate_export gsheet_mime fmt n).output_mime_type = xlsx_mime) ∧
    ((negotiate_export gslides_mime fmt n).export_mime_type = some pptx_mime ↔ fmt = some "pptx") ∧
    (fmt ≠ some "pptx" →
      (negotiate_export gslides_mime fmt n).export_mime_type = some pdf_mime ∧
      (negotiate_export gslides_mime fmt n).output_mime_type = pdf_mime) ∧
    (mime ≠ gdoc_mime → mime ≠ gsheet_mime → mime ≠ gslides_mime →
      negotiate_export mime fmt n = ⟨none, mime, n⟩ ∧
      download_request fid (negotiate_export mime fmt n).export_mime_type =
        Call.filesGetMedia fid) := by
  refine ⟨?_, ?_, ?_, ?_, ?_, ?_, ?_⟩
  · by_cases h : fmt = some "docx" <;>
      simp [negotiate_export, h, gdoc_mime, gsheet_mime, gslides_mime, docx_mime, pdf_mime]
  · intro h
    simp [negotiate_export, h, gdoc_mime, gsheet_mime, gslides_mime]
  · by_cases h : fmt = some "csv" <;>
      simp [negotiate_export, h, gdoc_mime, gsheet_mime, gslides_mime, csv_mime, xlsx_mime]
  · intro h
    simp [negotiate_export, h, gdoc_mime, gsheet_mime, gslides_mime]
  · by_cases h : fmt = some "pptx" <;>
      simp [negotiate_export, h, gdoc_mime, gsheet_mime, gslides_mime, pptx_mime, pdf_mime]
  · intro h
    simp [negotiate_export, h, gdoc_mime, gsheet_mime, gslides_mime]
  · intro h1 h2 h3
    simp [negotiate_export, download_request, h1, h2, h3]

/-- C5 witness: a csv request on a spreadsheet exports CSV, a document with
no requested format exports PDF, and an image MIME type downloads as-is. -/
theorem c5_export_table_witness :
    (negotiate_export gsheet_mime (some "csv") "Budget").export_mime_type = some csv_mime ∧
    (negotiate_export gdoc_mime none "Doc").export_mime_type = some pdf_mime ∧
    negotiate_export "image/png" none "pic.png" = ⟨none, "image/png", "pic.png"⟩ := by
  refine ⟨?_, ?_, ?_⟩
  · exact (c5_export_table (some "csv") "Budget" "f" "image/png").2.2.1.mpr rfl
  · exact ((c5_export_table none "Doc" "f" "image/png").2.1 (by simp)).1
  · exact ((c5_export_table none "pic.png" "f" "image/png").2.2.2.2.2.2
      (by decide) (by decide) (by decide)).1

/-- C6: When an export target is chosen, the output filename is the original
name unchanged when it already ends with the target extension, and otherwise
the target extension appended to the preserved base name (the stem) of the
original filename. -/
theorem c6_output_filename (mime : String) (fmt : Option String) (name ext : String)
    (h : chosen_extension mime fmt = some ext) :
    (ends_with name ext = true → (negotiate_export mime fmt name).output_filename = name) ∧
    (ends_with name ext = false →
      (negotiate_export mime fmt name).output_filename = python_stem name ++ ext) := by
  constructor <;> intro hend <;>
    · revert h
      unfold chosen_extension negotiate_export fix_extension
      split_ifs <;> intro h <;> simp_all

/-- C6 witness: report.pdf already carries the pdf extension and stays
unchanged; report.txt becomes report.pdf with its base name preserved. -/
theorem c6_output_filename_witness :
    chosen_extension gdoc_mime none = some ".pdf" ∧
    ends_with "report.pdf" ".pdf" = true ∧
    (negotiate_export gdoc_mime none "report.pdf").output_filename = "report.pdf" ∧
    ends_with "report.txt" ".pdf" = false ∧
    (negotiate_export gdoc_mime none "report.txt").output_filename = "report.pdf" := by
  refine ⟨by decide, by decide, ?_, by decide, ?_⟩
  · exact (c6_output_filename gdoc_mime none "report.pdf" ".pdf" (by decide)).1 (by decide)
  · exact ((c6_output_filename gdoc_mime none "report.txt" ".pdf" (by decide)).2 (by decide)).trans
      (by decide)

/-- C7 counterexample: an HTTP response whose Content-Type header is present
with the empty value, which differs from the octet-stream sentinel, does not
replace the caller-declared MIME type: the created file keeps text/plain for
both the upload media and the metadata, contradicting the claim that any
non-octet-stream header value overrides. -/
theorem c7_counterexample :
    stateless_empty_ct_env.http_content_type "https://e.com/f" = some "" ∧
    "" ≠ octet_stream ∧
    (create_drive_file stateless_empty_ct_env "f.txt" none "root" "text/plain"
      (some "https://e.com/f")).1 =
      [Call.httpGet "https://e.com/f",
       Call.filesCreate ⟨"f.txt", ["root"], "text/plain"⟩ [1, 2] "text/plain"] ∧
    "text/plain" ≠ "" := by
  exact ⟨rfl, by decide, rfl, by decide⟩

/-- C7 amended: for HTTP(S) uploads the Content-Type header value replaces
the caller-declared MIME type, for the upload media and the file metadata
alike, exactly when it is present, non-empty, and not the octet-stream
sentinel; an absent, empty, or octet-stream header leaves the declared type
unchanged.  The equation holds for every environment, so it covers the
stateless in-memory branch and the temp-file streaming branch alike. -/
theorem c7_content_type_override (env : DriveEnv) (n : String) (content : Option String)
    (folder mime u : String) (tr : List Call) (rid : String)
    (hs : url_scheme u = "http" ∨ url_scheme u = "https")
    (hres : resolve_folder_id env folder = (tr, Except.ok rid))
    (hst : env.http_status u = 200) :
    create_drive_file env n content folder mime (some u) =
      (tr ++ [Call.httpGet u,
        Call.filesCreate ⟨n, [rid], content_type_mime mime (env.http_content_type u)⟩
          (env.http_body u) (content_type_mime mime (env.http_content_type u))],
       Except.ok (env.files_create_result
         ⟨n, [rid], content_type_mime mime (env.http_content_type u)⟩ (env.http_body u))) ∧
    (∀ ct, env.http_content_type u = some ct → ct ≠ "" → ct ≠ octet_stream →
      content_type_mime mime (env.http_content_type u) = ct) ∧
    (env.http_content_type u = none ∨ env.http_content_type u = some "" ∨
        env.http_content_type u = some octet_stream →
      content_type_mime mime (env.http_content_type u) = mime) := by
  have hu : truthy (some u) = true := by
    by_cases h : u = ""
    · subst h
      rcases hs with h2 | h2 <;> simp [url_scheme, split_scheme] at h2
    · simp [truthy, isEmpty_false_of_ne u h]
  refine ⟨?_, ?_, ?_⟩
  · unfold create_drive_file
    rcases hs with h2 | h2 <;>
      cases hsl : env.stateless_mode <;> simp [hu, hres, h2, hsl, hst]
  · intro ct hct h1 h2
    simp [content_type_mime, hct, isEmpty_false_of_ne ct h1, h2]
  · intro hcase
    have hne : ("" : String).isEmpty = true := by decide
    rcases hcase with h2 | h2 | h2 <;> simp [content_type_mime, h2, octet_stream, hne]

/-- C7 witness: with the empty-header environment the declared text/plain
MIME is kept for media and metadata of the created file. -/
theorem c7_content_type_override_witness :
    create_drive_file stateless_empty_ct_env "f.txt" none "root" "text/plain"
      (some "https://e.com/f") =
      ([Call.httpGet "https://e.com/f",
        Call.filesCreate ⟨"f.txt", ["root"], "text/plain"⟩ [1, 2] "text/plain"],
       Except.ok ⟨"newid", "f.txt", "http://newlink"⟩) := by
  have h := (c7_content_type_override stateless_empty_ct_env "f.txt" none "root"
    "text/plain" "https://e.com/f" [] "root" (Or.inr (by decide)) rfl rfl).1
  exact h.trans (by rfl)

/-- C8: Any fileUrl whose scheme is neither file, http, nor https makes
create_drive_file fail with the input-validation message, which names the
unsupported scheme whenever one is present; the trace contains only
metadata-read calls, so no upload happens and no other fetch strategy is
attempted. -/
theorem c8_unsupported_scheme (env : DriveEnv) (n : String) (content : Option String)
    (folder mime u : String) (tr : List Call) (rid : String)
    (hu : truthy (some u) = true)
    (hf : url_scheme u ≠ "file") (hh : url_scheme u ≠ "http") (hhs : url_scheme u ≠ "https")
    (hres : resolve_folder_id env folder = (tr, Except.ok rid)) :
    create_drive_file env n content folder mime (some u) =
      (tr, Except.error (if (url_scheme u).isEmpty then msg_missing_scheme
        else msg_unsupported_scheme (url_scheme u))) ∧
    (url_scheme u ≠ "" →
      (create_drive_file env n content folder mime (some u)).2 =
        Except.error (msg_unsupported_scheme (url_scheme u))) ∧
    (∀ c ∈ (create_drive_file env n content folder mime (some u)).1,
      ∃ x, c = Call.filesGet x) := by
  have hgoal : create_drive_file env n content folder mime (some u) =
      (tr, Except.error (if (url_scheme u).isEmpty then msg_missing_scheme
        else msg_unsupported_scheme (url_scheme u))) := by
    unfold create_drive_file
    simp [hu, hres, hf, hh, hhs]
    split_ifs <;> rfl
  refine ⟨hgoal, ?_, ?_⟩
  · intro hne
    rw [hgoal]
    simp [isEmpty_false_of_ne (url_scheme u) hne]
  · intro c hc
    rw [hgoal] at hc
    exact resolve_folder_id_trace env folder c (by rw [hres]; exact hc)

/-- C8 witness: an ftp URL is rejected with the message naming the ftp
scheme and no call is made. -/
theorem c8_unsupported_scheme_witness :
    create_drive_file demo_env "f.txt" none "root" "text/plain"
      (some "ftp://example.com/x") =
      ([], Except.error ("Unsupported URL scheme " ++ sq_str ++ "ftp" ++ sq_str ++
        ". Only file://, http://, and https:// are supported.")) := by
  have h := (c8_unsupported_scheme demo_env "f.txt" none "root" "text/plain"
    "ftp://example.com/x" [] "root" (by decide) (by decide) (by decide) (by decide) rfl).1
  exact h.trans (by rfl)

/-- C10: When a non-empty fileUrl is supplied, the result of
create_drive_file is identical whatever the content argument is, so the
content is ignored entirely; and the uploaded bytes are exactly those
fetched from the fileUrl, in the HTTP(S) case the response body and in the
file case the bytes read from the local path. -/
theorem c10_fileUrl_wins (env : DriveEnv) (n folder mime u : String) (content : Option String)
    (hu : truthy (some u) = true) :
    create_drive_file env n content folder mime (some u) =
      create_drive_file env n none folder mime (some u) ∧
    (∀ (tr : List Call) (rid : String),
      (url_scheme u = "http" ∨ url_scheme u = "https") →
      resolve_folder_id env folder = (tr, Except.ok rid) → env.http_status u = 200 →
      (create_drive_file env n content folder mime (some u)).1 =
        tr ++ [Call.httpGet u,
          Call.filesCreate ⟨n, [rid], content_type_mime mime (env.http_content_type u)⟩
            (env.http_body u) (content_type_mime mime (env.http_content_type u))]) ∧
    (∀ (tr : List Call) (rid : String),
      url_scheme u = "file" →
      resolve_folder_id env folder = (tr, Except.ok rid) →
      env.fs_exists (file_url_local_path u) = true →
      env.fs_is_file (file_url_local_path u) = true →
      (create_drive_file env n content folder mime (some u)).1 =
        tr ++ [Call.filesCreate ⟨n, [rid], mime⟩ (env.fs_read (file_url_local_path u)) mime]) := by
  refine ⟨?_, ?_, ?_⟩
  · unfold create_drive_file
    rcases hres : resolve_folder_id env folder with ⟨tr0, r⟩
    cases r <;> simp [hu, hres]
  · intro tr rid hs hres hst
    unfold create_drive_file
    rcases hs with h2 | h2 <;>
      cases hsl : env.stateless_mode <;> simp [hu, hres, h2, hsl, hst]
  · intro tr rid hs hres hex hisf
    unfold create_drive_file
    simp [hu, hres, hs, hex, hisf]

/-- C10 witness: with both content and fileUrl supplied, the result equals
the run without content and the uploaded bytes are the fetched body. -/
theorem c10_fileUrl_wins_witness :
    create_drive_file demo_env "f.txt" (some "ignored text") "root" "text/plain"
      (some "https://e.com/data.bin") =
      create_drive_file demo_env "f.txt" none "root" "text/plain"
      (some "https://e.com/data.bin") ∧
    (create_drive_file demo_env "f.txt" (some "ignored text") "root" "text/plain"
      (some "https://e.com/data.bin")).1 =
      [Call.httpGet "https://e.com/data.bin",
       Call.filesCreate ⟨"f.txt", ["root"], "text/plain"⟩ [7, 8] "text/plain"] := by
  constructor
  · exact (c10_fileUrl_wins demo_env "f.txt" "root" "text/plain" "https://e.com/data.bin"
      (some "ignored text") (by decide)).1
  · have h := (c10_fileUrl_wins demo_env "f.txt" "root" "text/plain" "https://e.com/data.bin"
      (some "ignored text") (by decide)).2.1 [] "root" (Or.inr (by decide)) rfl rfl
    exact h.trans (by rfl)

/-- C9: The files.update body contains exactly the metadata fields the
caller supplied with a non-absent value, each absent parameter contributes
no key, and when no field is supplied no body at all enters the update
parameters. -/
theorem c9_sparse_patch (file_id : String) (ra rr : Option String)
    (name description mime_type : Option String)
    (starred trashed wcs crwp : Option Bool)
    (properties : Option (List (String × String))) :
    (∀ v, ("name", UpdateVal.str v) ∈
        build_update_body name description mime_type starred trashed wcs crwp properties ↔
      name = some v) ∧
    (∀ v, ("description", UpdateVal.str v) ∈
        build_update_body name description mime_type starred trashed wcs crwp properties ↔
      description = some v) ∧
    (∀ v, ("mimeType", UpdateVal.str v) ∈
        build_update_body name description mime_type starred trashed wcs crwp properties ↔
      mime_type = some v) ∧
    (∀ v, ("starred", UpdateVal.bool v) ∈
        build_update_body name description mime_type starred trashed wcs crwp properties ↔
      starred = some v) ∧
    (∀ v, ("trashed", UpdateVal.bool v) ∈
        build_update_body name description mime_type starred trashed wcs crwp properties ↔
      trashed = some v) ∧
    (∀ v, ("writersCanShare", UpdateVal.bool v) ∈
        build_update_body name description mime_type starred trashed wcs crwp properties ↔
      wcs = some v) ∧
    (∀ v, ("copyRequiresWriterPermission", UpdateVal.bool v) ∈
        build_update_body name description mime_type starred trashed wcs crwp properties ↔
      crwp = some v) ∧
    (∀ v, ("properties", UpdateVal.props v) ∈
        build_update_body name description mime_type starred trashed wcs crwp properties ↔
      properties = some v) ∧
    (∀ kv ∈ build_update_body name description mime_type starred trashed wcs crwp properties,
      kv.1 ∈ ["name", "description", "mimeType", "starred", "trashed", "writersCanShare",
        "copyRequiresWriterPermission", "properties"]) ∧
    ((update_query_params file_id ra rr name description mime_type starred trashed wcs
        crwp properties).body = none ↔
      (name = none ∧ description = none ∧ mime_type = none ∧ starred = none ∧
       trashed = none ∧ wcs = none ∧ crwp = none ∧ properties = none)) := by
  refine ⟨fun v => by simp [build_update_body, opt_field_mem, List.mem_append],
    fun v => by simp [build_update_body, opt_field_mem, List.mem_append],
    fun v => by simp [build_update_body, opt_field_mem, List.mem_append],
    fun v => by simp [build_update_body, opt_field_mem, List.mem_append],
    fun v => by simp [build_update_body, opt_field_mem, List.mem_append],
    fun v => by simp [build_update_body, opt_field_mem, List.mem_append],
    fun v => by simp [build_update_body, opt_field_mem, List.mem_append],
    fun v => by simp [build_update_body, opt_field_mem, List.mem_append],
    ?_, ?_⟩
  · rintro ⟨k, x⟩ hkv
    simp [build_update_body, List.mem_append, opt_field_mem] at hkv
    rcases hkv with h | h | h | h | h | h | h | h <;> simp [h.1]
  · simp [update_query_params, build_update_body, List.isEmpty_iff, List.append_eq_nil,
      opt_field_eq_nil]

/-- C9 witness: a supplied name enters the body under its key, and the
all-absent update sends no body. -/
theorem c9_sparse_patch_witness :
    (("name", UpdateVal.str "New") ∈
      build_update_body (some "New") none none none none none none none) ∧
    (update_query_params "f1" none none none none none none none none none none).body =
      none := by
  constructor
  · exact ((c9_sparse_patch "f1" none none (some "New") none none none none none
      none none).1 "New").mpr rfl
  · exact (c9_sparse_patch "f1" none none none none none none none none none
      none).2.2.2.2.2.2.2.2.2.mpr ⟨rfl, rfl, rfl, rfl, rfl, rfl, rfl, rfl⟩
